import Mathlib

/-!
Verification of the claude-hub session registry and lifecycle coordinator.

The repository consists of two near-duplicate Python programs,
`claude-hub.py` and `claude-remote-hub.py`, which manage paired
tmux + ttyd processes behind a small HTTP control surface.  This file
gives a shallow embedding of the pure logic of those programs — the
deterministic name→port mapping (including a full executable MD5, since
the mapping hashes the session name with `hashlib.md5`), the probe /
lifecycle / teardown functions with the external world modelled as an
explicit environment and the external commands they issue recorded as
an action trace, and the request-validation logic of the HTTP handlers —
and proves or refutes the specified properties about them.
-/

set_option maxRecDepth 20000

namespace ClaudeHub

/-! ## MD5 (RFC 1321), executable over naturals

`port_for_name` calls `hashlib.md5(name.encode())` and reads the hex
digest as an integer.  The embedding implements MD5 directly on byte
lists (naturals < 256) with 32-bit arithmetic written as explicit
`% 2 ^ 32`. -/

/-- Modulus of the 32-bit arithmetic used throughout MD5. -/
def M32 : Nat := 4294967296

/-- Left-rotation of a 32-bit word by `s` bits (for `x < 2 ^ 32`, `s ≤ 32`). -/
def rotl32 (s x : Nat) : Nat := x * 2 ^ s % M32 + x / 2 ^ (32 - s)

/-- Bitwise complement within 32 bits. -/
def not32 (x : Nat) : Nat := x ^^^ 4294967295

/-- Per-round sine-table constants of MD5 (table T of RFC 1321). -/
def md5K : List Nat :=
  [0xd76aa478, 0xe8c7b756, 0x242070db, 0xc1bdceee,
   0xf57c0faf, 0x4787c62a, 0xa8304613, 0xfd469501,
   0x698098d8, 0x8b44f7af, 0xffff5bb1, 0x895cd7be,
   0x6b901122, 0xfd987193, 0xa679438e, 0x49b40821,
   0xf61e2562, 0xc040b340, 0x265e5a51, 0xe9b6c7aa,
   0xd62f105d, 0x02441453, 0xd8a1e681, 0xe7d3fbc8,
   0x21e1cde6, 0xc33707d6, 0xf4d50d87, 0x455a14ed,
   0xa9e3e905, 0xfcefa3f8, 0x676f02d9, 0x8d2a4c8a,
   0xfffa3942, 0x8771f681, 0x6d9d6122, 0xfde5380c,
   0xa4beea44, 0x4bdecfa9, 0xf6bb4b60, 0xbebfbc70,
   0x289b7ec6, 0xeaa127fa, 0xd4ef3085, 0x04881d05,
   0xd9d4d039, 0xe6db99e5, 0x1fa27cf8, 0xc4ac5665,
   0xf4292244, 0x432aff97, 0xab9423a7, 0xfc93a039,
   0x655b59c3, 0x8f0ccc92, 0xffeff47d, 0x85845dd1,
   0x6fa87e4f, 0xfe2ce6e0, 0xa3014314, 0x4e0811a1,
   0xf7537e82, 0xbd3af235, 0x2ad7d2bb, 0xeb86d391]

/-- Per-round left-rotation amounts of MD5. -/
def md5S : List Nat :=
  [7, 12, 17, 22, 7, 12, 17, 22, 7, 12, 17, 22, 7, 12, 17, 22,
   5, 9, 14, 20, 5, 9, 14, 20, 5, 9, 14, 20, 5, 9, 14, 20,
   4, 11, 16, 23, 4, 11, 16, 23, 4, 11, 16, 23, 4, 11, 16, 23,
   6, 10, 15, 21, 6, 10, 15, 21, 6, 10, 15, 21, 6, 10, 15, 21]

/-- Nonlinear round function of MD5: F, G, H or I depending on the round. -/
def md5F (i b c d : Nat) : Nat :=
  if i < 16 then b &&& c ||| not32 b &&& d
  else if i < 32 then d &&& b ||| not32 d &&& c
  else if i < 48 then b ^^^ c ^^^ d
  else c ^^^ (b ||| not32 d)

/-- Message-word index schedule of MD5. -/
def md5G (i : Nat) : Nat :=
  if i < 16 then i
  else if i < 32 then (5 * i + 1) % 16
  else if i < 48 then (3 * i + 5) % 16
  else 7 * i % 16

/-- Little-endian 32-bit word `j` of a 64-byte block. -/
def blockWord (block : List Nat) (j : Nat) : Nat :=
  block.getD (4 * j) 0 + 256 * block.getD (4 * j + 1) 0 +
    65536 * block.getD (4 * j + 2) 0 + 16777216 * block.getD (4 * j + 3) 0

/-- One MD5 round applied to the register file `(a, b, c, d)`. -/
def md5Round (block : List Nat) (st : Nat × Nat × Nat × Nat) (i : Nat) :
    Nat × Nat × Nat × Nat :=
  let a := st.1
  let b := st.2.1
  let c := st.2.2.1
  let d := st.2.2.2
  let f := (md5F i b c d + a + md5K.getD i 0 + blockWord block (md5G i)) % M32
  (d, (b + rotl32 (md5S.getD i 0) f) % M32, b, c)

/-- Processing of one 64-byte block: 64 rounds, then the feed-forward sums. -/
def md5Block (st : Nat × Nat × Nat × Nat) (block : List Nat) :
    Nat × Nat × Nat × Nat :=
  let r := (List.range 64).foldl (md5Round block) st
  ((st.1 + r.1) % M32, (st.2.1 + r.2.1) % M32,
   (st.2.2.1 + r.2.2.1) % M32, (st.2.2.2 + r.2.2.2) % M32)

/-- Splitting helper: `n` successive 64-byte blocks off the front of a list. -/
def toBlocksGo : Nat → List Nat → List (List Nat)
  | 0, _ => []
  | n + 1, l => l.take 64 :: toBlocksGo n (l.drop 64)

/-- Split of a byte list (whose length is a multiple of 64) into its
successive 64-byte blocks. -/
def toBlocks (l : List Nat) : List (List Nat) := toBlocksGo (l.length / 64) l

/-- Little-endian byte expansion (`k` bytes) of a natural number. -/
def leBytes (k n : Nat) : List Nat := (List.range k).map fun i => n / 2 ^ (8 * i) % 256

/-- MD5 padding: a 0x80 byte, zeros up to 56 mod 64, then the 64-bit
little-endian bit length. -/
def md5Pad (msg : List Nat) : List Nat :=
  msg ++ [128] ++ List.replicate ((119 - msg.length % 64) % 64) 0 ++
    leBytes 8 (8 * msg.length % 2 ^ 64)

/-- Digest bytes of MD5 over a byte string, in emission order. -/
def md5Bytes (msg : List Nat) : List Nat :=
  let st := (toBlocks (md5Pad msg)).foldl md5Block
    (1732584193, 4023233417, 2562383102, 271733878)
  leBytes 4 st.1 ++ leBytes 4 st.2.1 ++ leBytes 4 st.2.2.1 ++ leBytes 4 st.2.2.2

/-- Digest read the way Python's `int(hexdigest, 16)` reads it: the 16
digest bytes as one big-endian integer. -/
def md5Int (msg : List Nat) : Nat :=
  (md5Bytes msg).foldl (fun acc b => acc * 256 + b) 0

/-- UTF-8 bytes of one character, as Python's `str.encode()` produces them. -/
def utf8Bytes (c : Char) : List Nat :=
  let n := c.toNat
  if n < 128 then [n]
  else if n < 2048 then [192 + n / 64, 128 + n % 64]
  else if n < 65536 then [224 + n / 4096, 128 + n / 64 % 64, 128 + n % 64]
  else [240 + n / 262144, 128 + n / 4096 % 64, 128 + n / 64 % 64, 128 + n % 64]

/-- UTF-8 encoding of a string, matching Python's `name.encode()`. -/
def strBytes (s : String) : List Nat := (s.data.map utf8Bytes).flatten

/-! ## Port allocator (claude-hub.py:37-40, claude-remote-hub.py:99-102) -/

/-- Base of the reserved bridge-port window (`BASE_PORT = 7700` in both files). -/
def BASE_PORT : Nat := 7700

/-- Top constant of the reserved window (`MAX_PORT = 7799` in both files). -/
def MAX_PORT : Nat := 7799

/-- Embedding of `port_for_name` (identical in both source files):
`BASE_PORT + int(md5(name.encode()).hexdigest(), 16) % (MAX_PORT - BASE_PORT)`. -/
def port_for_name (name : String) : Nat :=
  BASE_PORT + md5Int (strBytes name) % (MAX_PORT - BASE_PORT)

/-- Port derivation as the spec words it: reduce the digest modulo the width
of the half-open window `[BASE_PORT, BASE_PORT + 100)`, which is 100.  Stated
for comparison with the source's `port_for_name`, which divides by
`MAX_PORT - BASE_PORT = 99` instead. -/
def portForNameSpec (name : String) : Nat :=
  BASE_PORT + md5Int (strBytes name) % 100

/-! ## Python string primitives

Small executable models of the Python string operations the two programs
use, with the same semantics on the inputs that occur (`str.strip()` is
modelled as trimming ASCII whitespace). -/

/-- Whitespace characters of Python's `str.strip()` and `str.split()`. -/
def isSpaceChar (c : Char) : Bool :=
  c == ' ' || c == '\t' || c == '\n' || c == '\r' || c.toNat == 11 || c.toNat == 12

/-- Model of Python `str.strip()` with no arguments. -/
def pyStrip (s : String) : String :=
  String.mk (((s.data.dropWhile isSpaceChar).reverse.dropWhile isSpaceChar).reverse)

/-- Model of Python `s.startswith(pre)`. -/
def pyStartsWith (s pre : String) : Bool := pre.data.isPrefixOf s.data

/-- Model of Python `s.removeprefix(pre)`. -/
def pyRemovePrefix (s pre : String) : String :=
  if pyStartsWith s pre then String.mk (s.data.drop pre.data.length) else s

/-- Model of Python `s.strip("/")`: slashes removed from both ends. -/
def pyStripSlashes (s : String) : String :=
  String.mk (((s.data.dropWhile (· = '/')).reverse.dropWhile (· = '/')).reverse)

/-- Splitting worker for `pySplitOn`: the fuel bounds the remaining input
length, so the recursion is structural and reduces in the kernel. -/
def splitOnGo (sep : List Char) : Nat → List Char → List Char → List (List Char)
  | 0, acc, l => [acc.reverse ++ l]
  | fuel + 1, acc, l =>
    match l with
    | [] => [acc.reverse]
    | c :: rest =>
      if sep.isPrefixOf l then acc.reverse :: splitOnGo sep fuel [] (l.drop sep.length)
      else splitOnGo sep fuel (c :: acc) rest

/-- Model of Python `s.split(sep)` for a nonempty separator: the pieces
between non-overlapping left-to-right separator occurrences, empty pieces
kept. -/
def pySplitOn (s sep : String) : List String :=
  if sep.data.isEmpty then [s]
  else (splitOnGo sep.data s.data.length [] s.data).map String.mk

/-- Splitting worker for `pySplitWs`: whitespace runs separate words, empty
pieces discarded. -/
def splitWsGo : List Char → List Char → List (List Char)
  | acc, [] => if acc.isEmpty then [] else [acc.reverse]
  | acc, c :: rest =>
    if isSpaceChar c then
      if acc.isEmpty then splitWsGo [] rest else acc.reverse :: splitWsGo [] rest
    else splitWsGo (c :: acc) rest

/-- Model of Python `s.split()` with no arguments: split on whitespace runs,
empty pieces discarded. -/
def pySplitWs (s : String) : List String := (splitWsGo [] s.data).map String.mk

/-- Model of Python `pat in s` for a nonempty pattern. -/
def pyContains (s pat : String) : Bool := 2 ≤ (pySplitOn s pat).length

/-- Model of Python `s.isdigit()` on ASCII text: nonempty and all digits. -/
def pyIsDigit (s : String) : Bool := !s.data.isEmpty && s.data.all Char.isDigit

/-- Numeric value of a decimal digit string (Python `int(s)` for digit input). -/
def natOfDigits (s : String) : Nat := s.data.foldl (fun n c => 10 * n + (c.toNat - 48)) 0

/-- Model of Python `int(s)` returning none where Python raises ValueError. -/
def pyParseInt (s : String) : Option Int :=
  let t := pyStrip s
  if pyIsDigit t then some (natOfDigits t)
  else if pyStartsWith t "-" && pyIsDigit (String.mk (t.data.drop 1)) then
    some (-(natOfDigits (String.mk (t.data.drop 1)) : Int))
  else none

/-- Last segment of a string after splitting on colons: both
`part.split(":")[-1]` (lsof parsing) and `part.rsplit(":", 1)[-1]`
(ss parsing) denote exactly this. -/
def lastColonSeg (s : String) : String := (pySplitOn s ":").getLastD ""

/-- Model of `os.path.join(a, b)` for the shapes that occur: an absolute
second argument wins, otherwise the parts are joined with a slash. -/
def pyJoin (a b : String) : String := if pyStartsWith b "/" then b else a ++ "/" ++ b

/-- Model of `os.path.basename` on slash-separated paths. -/
def pyBasename (s : String) : String := (pySplitOn s "/").getLastD ""

/-- ASCII lowering of one character, as Python `str.lower()` does on the
names that occur. -/
def lowerChar (c : Char) : Char :=
  if 65 ≤ c.toNat ∧ c.toNat ≤ 90 then Char.ofNat (c.toNat + 32) else c

/-- Strict lexicographic comparison by code point, Python's string `<`. -/
def lexLt : List Char → List Char → Bool
  | [], [] => false
  | [], _ :: _ => true
  | _ :: _, [] => false
  | a :: as, b :: bs =>
    if a.toNat < b.toNat then true
    else if b.toNat < a.toNat then false
    else lexLt as bs

/-- Stable insertion of a scandir entry into a list sorted by lowercased
name. -/
def insertByLower (e : String × Bool) : List (String × Bool) → List (String × Bool)
  | [] => [e]
  | x :: xs =>
    if lexLt (e.1.data.map lowerChar) (x.1.data.map lowerChar) then e :: x :: xs
    else x :: insertByLower e xs

/-- Model of Python `sorted(entries, key=lambda e: e.name.lower())`: a
stable sort by lowercased name. -/
def pySortByLower (l : List (String × Bool)) : List (String × Bool) :=
  l.foldr insertByLower []

/-! ## External world model for the lifecycle coordinator

The coordinator's effects are tmux / ttyd / pkill / lsof commands issued
through `subprocess`.  The embedding records each issued command as an
`Action` and models the state of the external world (existing tmux
sessions, listening ports, the filesystem) explicitly. -/

/-- External commands the programs issue, recorded as a trace.  The Popen
process creations (`tmux new-session` and the ttyd bridge spawn) are the
creation actions; the rest are probes or best-effort control commands.
The long ttyd flag lists of the two files are abstracted into the one
`spawnTtyd` action holding the bound port and attach target. -/
inductive Action where
  | hasSession (session : String)
  | newSession (session : String) (dir : Option String) (skipPermissions : Bool)
  | setMouseOption (session : String)
  | spawnTtyd (port : Nat) (session : String)
  | checkPort (port : Nat)
  | pkillTtyd (port : Nat)
  | sigterm (pid : Nat)
  | killSession (session : String)
  | sendKeys (session : String) (key : String)
  | loadBuffer (text : String)
  | pasteBuffer (session : String)
  | copyMode (session : String)
  deriving Repr, DecidableEq

/-- Which recorded actions create one of the two backing processes
(a `subprocess.Popen` of `tmux new-session` or of the ttyd bridge). -/
def Action.isCreation : Action → Bool
  | .newSession _ _ _ => true
  | .spawnTtyd _ _ => true
  | _ => false

/-- State of the external world as the lifecycle coordinator can observe it:
which tmux sessions exist, which TCP ports are listening, which paths are
directories. -/
structure Env where
  tmuxSessions : List String
  listeningPorts : List Nat
  isDir : String → Bool

/-- Multiplexer session identifier: fixed prefix plus name, the source's
`f"claude-{name}"`. -/
def sessionId (name : String) : String := "claude-" ++ name

/-- Embedding of `start_session` (claude-hub.py:138-178 and
claude-remote-hub.py:257-305, identical in control flow): derive the port,
create the tmux session running the assistant when `tmux has-session` fails
(passing the working directory only when it is a directory), enable the
mouse option, then spawn the ttyd bridge bound to the port when nothing
listens there.  Returns the port, the trace of issued commands, and the
world after the spawned processes have come up. -/
def startSession (env : Env) (name : String) (directory : Option String)
    (skipPermissions : Bool) : Nat × List Action × Env :=
  let port := port_for_name name
  let session := sessionId name
  let dirArg : Option String :=
    match directory with
    | some d => if !(d == "") && env.isDir d then some d else none
    | none => none
  let hasIt := session ∈ env.tmuxSessions
  let createActs : List Action :=
    if hasIt then []
    else [Action.newSession session dirArg skipPermissions, Action.setMouseOption session]
  let env1 : Env :=
    if hasIt then env
    else Env.mk (session :: env.tmuxSessions) env.listeningPorts env.isDir
  let portUsed := port ∈ env.listeningPorts
  let ttydActs : List Action :=
    if portUsed then [] else [Action.spawnTtyd port session]
  let env2 : Env :=
    if portUsed then env1
    else Env.mk env1.tmuxSessions (port :: env1.listeningPorts) env1.isDir
  (port, Action.hasSession session :: createActs ++ Action.checkPort port :: ttydActs, env2)

/-- Availability and outcome of the teardown steps: whether the pkill
binary exists (claude-hub.py hardcodes `/usr/bin/pkill`; the remote variant
asks `shutil.which`), whether `shutil.which` finds lsof, the exit status
and stdout of `lsof -ti :port`, which PIDs make `os.kill(pid, SIGTERM)`
raise ProcessLookupError or PermissionError (classes the fallback's
`except (CalledProcessError, ValueError)` does not catch), and whether the
tmux binary exists (claude-hub.py hardcodes `/opt/homebrew/bin/tmux`, the
remote variant falls back to the bare name "tmux"; either way an absent
binary makes the kill-session `subprocess.run` raise FileNotFoundError). -/
structure KillEnv where
  pkillPresent : Bool
  lsofPresent : Bool
  lsofTiExitZero : Bool
  lsofTiOut : String
  killRaises : Nat → Bool
  tmuxPresent : Bool

/-- The `os.kill(int(pid_str), signal.SIGTERM)` loop of the lsof fallback
(claude-remote-hub.py:325-327): PIDs are signalled in order; a kill that
raises one of the uncaught classes aborts the loop (the raised flag is the
second component) and the exception propagates. -/
def sigtermLoop (raises : Nat → Bool) : List Nat → List Action × Bool
  | [] => ([], false)
  | pid :: rest =>
    if raises pid then ([Action.sigterm pid], true)
    else
      let r := sigtermLoop raises rest
      (Action.sigterm pid :: r.1, r.2)

/-- Bridge-kill phase of `stop_session` in claude-remote-hub.py:313-329:
pkill on the ttyd port pattern when `shutil.which` finds it; otherwise the
lsof fallback — `lsof -ti :port` (a nonzero exit is the caught
CalledProcessError) and SIGTERM on each numeric PID of its stripped output,
where an uncaught `os.kill` error aborts the phase. -/
def bridgeKillRemote (kenv : KillEnv) (port : Nat) : List Action × Bool :=
  if kenv.pkillPresent then ([Action.pkillTtyd port], false)
  else if kenv.lsofPresent then
    if kenv.lsofTiExitZero then
      sigtermLoop kenv.killRaises
        (((pySplitOn (pyStrip kenv.lsofTiOut) "\n").filter (fun p => pyIsDigit p)).map
          (fun p => natOfDigits p))
    else ([], false)
  else ([], false)

/-- Embedding of `stop_session` in claude-hub.py:181-188: `pkill -f` on the
ttyd port pattern through the hardcoded `/usr/bin/pkill` path, then
`tmux kill-session` through the hardcoded tmux path; both via
`subprocess.run` with output captured, so nonzero exits are ignored — but a
missing pkill binary raises FileNotFoundError before the kill-session is
attempted, and a missing tmux binary makes the kill-session run itself
raise.  Returns the trace and whether an uncaught exception escaped. -/
def stopSessionHub (kenv : KillEnv) (name : String) : List Action × Bool :=
  let port := port_for_name name
  let session := sessionId name
  if kenv.pkillPresent then
    if kenv.tmuxPresent then
      ([Action.pkillTtyd port, Action.killSession session], false)
    else ([Action.pkillTtyd port], true)
  else ([], true)

/-- Embedding of `stop_session` in claude-remote-hub.py:308-332: the
bridge-kill phase (pkill, or the lsof/SIGTERM fallback whose `os.kill` can
raise an uncaught error), then — only when no exception escaped that
phase — the `tmux kill-session` run, which itself raises when the tmux
binary is absent. -/
def stopSessionRemote (kenv : KillEnv) (name : String) : List Action × Bool :=
  let session := sessionId name
  let b := bridgeKillRemote kenv (port_for_name name)
  if b.2 then b
  else if kenv.tmuxPresent then (b.1 ++ [Action.killSession session], false)
  else (b.1, true)

/-! ## Process inventory probe (get_sessions) -/

/-- Outcome of the tmux `list-sessions` sub-probe as the Python caller sees
it: normal output, CalledProcessError (nonzero exit), FileNotFoundError
(binary absent), or the bounded 3-second future timeout. -/
inductive ProbeOutcome where
  | ok (out : String)
  | nonzeroExit
  | binMissing
  | timeout
  deriving Repr, DecidableEq

/-- Outcome of the listening-port sub-probe under its bounded future:
`get_ttyd_ports` absorbs its own tool failures into an empty set, so the
caller can observe only a port set or the future timeout. -/
inductive PortsOutcome where
  | ok (ports : List Nat)
  | timeout
  deriving Repr, DecidableEq

/-- One entry of the session listing built by `get_sessions`.  The
`strftime` display of the activity timestamp is abstracted to the parsed
epoch value (`none` where the source shows `"?"`). -/
structure SessionView where
  name : String
  port : Nat
  activity : Option Int
  attached : Bool
  has_ttyd : Bool
  deriving Repr, DecidableEq

/-- Parsing of one `tmux list-sessions -F` line (the loop body of
`get_sessions`): only lines starting with the reserved prefix count; the
fields are pipe-separated; a missing or non-numeric activity field is the
caught ValueError / IndexError case; the attached flag is field 3 when
present, defaulting to "0". -/
def parseSessionLine (ttydPorts : List Nat) (line : String) : Option SessionView :=
  if pyStartsWith line "claude-" then
    let parts := pySplitOn line "|"
    let name := pyRemovePrefix (parts.getD 0 "") "claude-"
    let activity := if 2 ≤ parts.length then pyParseInt (parts.getD 1 "") else none
    let attached := parts.getD 3 "0"
    let port := port_for_name name
    some (SessionView.mk name port activity (!(attached == "0")) (ttydPorts.contains port))
  else none

/-- Embedding of `get_sessions` (claude-hub.py:67-104 and
claude-remote-hub.py:183-219): the tmux listing and the port enumeration
run as two futures with a 3-second timeout each; the surrounding `try`
catches exactly CalledProcessError and FileNotFoundError, mapping them to
the empty listing, while a future timeout belongs to neither class and
escapes; on success the stripped output lines are parsed and
cross-referenced with the port set.  The error value marks the uncaught
exception. -/
def getSessions (tmuxRes : ProbeOutcome) (portsRes : PortsOutcome) :
    Except Unit (List SessionView) :=
  match tmuxRes with
  | .nonzeroExit => .ok []
  | .binMissing => .ok []
  | .timeout => .error ()
  | .ok out =>
    match portsRes with
    | .timeout => .error ()
    | .ok ttydPorts =>
      .ok ((pySplitOn (pyStrip out) "\n").filterMap (parseSessionLine ttydPorts))

/-! ## Listening-port enumeration (claude-remote-hub.py:105-180) -/

/-- Outcome of one enumeration tool run: its stdout, or the caught
CalledProcessError / FileNotFoundError class. -/
inductive CmdOutcome where
  | ok (out : String)
  | fail
  deriving Repr, DecidableEq

/-- World state of the network probes: which tools `shutil.which` finds,
what they print, the platform string, and the per-port probe answers
(`lsof -i :port` exit status, `ss` filtered output, raw socket connect). -/
structure NetEnv where
  lsofFound : Bool
  ssFound : Bool
  lsofOut : CmdOutcome
  ssOut : CmdOutcome
  platform : String
  lsofPortExitZero : Nat → Bool
  ssPortOut : Nat → String
  socketConnects : Nat → Bool

/-- Port set parsed from lsof output (loop of `_get_listening_ports_lsof`):
on the stripped output's lines containing "LISTEN", every whitespace-split
part containing a colon whose last colon segment is numeric contributes
that number. -/
def parseLsofPorts (out : String) : Finset ℕ :=
  (pySplitOn (pyStrip out) "\n").foldl
    (fun acc line =>
      if pyContains line "LISTEN" then
        (pySplitWs line).foldl
          (fun acc2 part =>
            if pyContains part ":" && pyIsDigit (lastColonSeg part) then
              insert (natOfDigits (lastColonSeg part)) acc2
            else acc2)
          acc
      else acc)
    ∅

/-- Port set parsed from `ss -tlnH` output (loop of
`_get_listening_ports_ss`): every whitespace-split part containing a colon
whose last colon segment is numeric contributes that number when it lies in
the reserved window `BASE_PORT ≤ p ≤ MAX_PORT`. -/
def parseSsPorts (out : String) : Finset ℕ :=
  (pySplitOn (pyStrip out) "\n").foldl
    (fun acc line =>
      (pySplitWs line).foldl
        (fun acc2 part =>
          if pyContains part ":" && pyIsDigit (lastColonSeg part) then
            if BASE_PORT ≤ natOfDigits (lastColonSeg part) ∧
                natOfDigits (lastColonSeg part) ≤ MAX_PORT then
              insert (natOfDigits (lastColonSeg part)) acc2
            else acc2
          else acc2)
        acc)
    ∅

/-- Embedding of `_get_listening_ports_lsof`: empty when `shutil.which`
finds no lsof or the run fails, otherwise the parsed output. -/
def listeningPortsLsof (net : NetEnv) : Finset ℕ :=
  if net.lsofFound then
    match net.lsofOut with
    | .ok out => parseLsofPorts out
    | .fail => ∅
  else ∅

/-- Embedding of `_get_listening_ports_ss`: empty when `shutil.which` finds
no ss or the run fails, otherwise the parsed output. -/
def listeningPortsSs (net : NetEnv) : Finset ℕ :=
  if net.ssFound then
    match net.ssOut with
    | .ok out => parseSsPorts out
    | .fail => ∅
  else ∅

/-- Embedding of `get_ttyd_ports` (claude-remote-hub.py:157-162): the lsof
result, falling back to ss only when that result is empty and the platform
is linux. -/
def getTtydPorts (net : NetEnv) : Finset ℕ :=
  let ports := listeningPortsLsof net
  if ports = ∅ ∧ net.platform = "linux" then listeningPortsSs net else ports

/-- Embedding of `port_in_use` (claude-remote-hub.py:165-180), the
single-port liveness check: lsof exit status when lsof is found, else
nonempty filtered ss output, else the raw socket connect probe. -/
def portInUse (net : NetEnv) (port : ℕ) : Bool :=
  if net.lsofFound then net.lsofPortExitZero port
  else if net.ssFound then !(pyStrip (net.ssPortOut port)).isEmpty
  else net.socketConnects port

/-- Enumeration chain as the spec words it, for comparison with the
source's `getTtydPorts`: primary tool, secondary tool when the primary is
absent, and finally a direct connect-probe of every candidate port in the
reserved window when both tools are unavailable. -/
def getTtydPortsSpec (net : NetEnv) : Finset ℕ :=
  if net.lsofFound then listeningPortsLsof net
  else if net.ssFound then listeningPortsSs net
  else ((Finset.range 100).image fun i => BASE_PORT + i).filter
    fun p => net.socketConnects p = true

/-- World with no enumeration tools on a linux host where a socket connect
to port 7700 would succeed. -/
def netNoTools : NetEnv :=
  NetEnv.mk false false CmdOutcome.fail CmdOutcome.fail "linux"
    (fun _ => false) (fun _ => "") (fun p => p == 7700)

/-! ## Folder browsing (get_folders) -/

/-- Filesystem as `get_folders` observes it: the configured root, the home
directory, `os.path.realpath` / `os.path.relpath` resolution, directory
tests, `os.scandir` entries as (name, is_dir) pairs, and which directories
raise the caught PermissionError class when scanned. -/
structure FsEnv where
  devRoot : String
  home : String
  realpath : String → String
  relpath : String → String → String
  isDir : String → Bool
  entries : String → List (String × Bool)
  permissionDenied : String → Bool

/-- Directory names skipped by the folder picker (`IGNORED_DIRS` in both
files). -/
def IGNORED_DIRS : List String :=
  [".git", "node_modules", "__pycache__", "venv", ".venv", ".tox",
   ".mypy_cache", ".pytest_cache", "dist", "build", ".next", ".nuxt"]

/-- Record returned by `get_folders`. -/
structure FolderView where
  folders : List String
  current : String
  absolute : String
  can_go_up : Bool
  root_name : String
  deriving Repr, DecidableEq

/-- Listing shared by both `get_folders` variants: scandir entries sorted by
lowercased name, keeping directory entries whose name neither starts with a
dot nor is ignored; a PermissionError while scanning yields the empty
list. -/
def listFolders (fs : FsEnv) (target : String) : List String :=
  if fs.permissionDenied target then []
  else
    ((pySortByLower (fs.entries target)).filter
      fun e => e.2 && !(pyStartsWith e.1 ".") && !(IGNORED_DIRS.contains e.1)).map
      fun e => e.1

/-- Confinement step of `get_folders`: `if not target.startswith(base):
target = base`. -/
def confineTarget (base target : String) : String :=
  if !(pyStartsWith target base) then base else target

/-- Display path of `get_folders`: `os.path.relpath(target, base)` with "."
replaced by the empty string. -/
def displayPath (fs : FsEnv) (target base : String) : String :=
  let d := fs.relpath target base
  if d == "." then "" else d

/-- Embedding of `get_folders` in claude-hub.py:107-135: resolve the root,
resolve the joined relative path, clamp to the root when the resolved
target does not have the root as a string prefix, then list. -/
def getFoldersHub (fs : FsEnv) (relPath : String) : FolderView :=
  let base := fs.realpath fs.devRoot
  let target0 := if !(relPath == "") then fs.realpath (pyJoin base relPath) else base
  let target := confineTarget base target0
  FolderView.mk (listFolders fs target) (displayPath fs target base) target
    (!(target == base)) (pyBasename base)

/-- Embedding of `get_folders` in claude-remote-hub.py:222-254: like the hub
variant, with the root falling back to the home directory when it is not a
directory, and the confined target falling back to the root when it is not
a directory. -/
def getFoldersRemote (fs : FsEnv) (relPath : String) : FolderView :=
  let base0 := fs.realpath fs.devRoot
  let base := if !(fs.isDir base0) then fs.home else base0
  let target0 := if !(relPath == "") then fs.realpath (pyJoin base relPath) else base
  let target1 := confineTarget base target0
  let target := if !(fs.isDir target1) then base else target1
  FolderView.mk (listFolders fs target) (displayPath fs target base) target
    (!(target == base)) (pyBasename base)

/-- Within-tree relation on canonical absolute paths, following the claim's
words: the target is the root itself or lies strictly below it. -/
def withinTree (root p : String) : Bool := p == root || pyStartsWith p (root ++ "/")

/-- Filesystem where the configured root "/r/p" has a sibling directory
"/r/pq" whose canonical path extends the root's path as a plain string. -/
def fsEscape : FsEnv :=
  FsEnv.mk "/r/p" "/home/u"
    (fun s => if s == "/r/p/../pq" then "/r/pq" else s)
    (fun t b => if t == b then "." else "../pq")
    (fun _ => true) (fun _ => []) (fun _ => false)

/-! ## HTTP control surface (HubHandler) -/

/-- Model of Python `path.split(sep)[1]`: the second piece of the full
split (the routes establish that the separator occurs). -/
def pySplitIdx1 (s sep : String) : String := (pySplitOn s sep).getD 1 ""

/-- Routes of `do_POST`, matched in source order by path prefix. -/
inductive PostRoute where
  | sendKeysR
  | sendTextR
  | scrollR
  | other
  deriving Repr, DecidableEq

/-- Request body as the handler sees it: bytes that are not a JSON object
(`json.loads` raises, or `.get` fails) or a JSON object of string fields
(the shapes the routes read; `data.get(k, "")` yields "" for an absent
field). -/
inductive PostBody where
  | malformed
  | fields (kv : List (String × String))
  deriving Repr, DecidableEq

/-- Model of `data.get(k, "")` on the parsed JSON object. -/
def jsonGet (kv : List (String × String)) (k : String) : String :=
  match kv.find? fun e => e.1 == k with
  | some e => e.2
  | none => ""

/-- Allow-list of forwardable key names (`allowed_keys` in both files). -/
def allowedKeys : List String :=
  ["Escape", "Tab", "BTab", "Enter", "Space", "Up", "Down", "Left", "Right",
   "C-c", "C-v", "C-z", "C-d", "C-l", "C-a", "C-e",
   "C-r", "C-w", "C-u", "C-k", "C-b", "C-f", "C-n", "C-p"]

/-- HTTP responses the POST handler sends. -/
inductive Response where
  | okJson
  | badRequest
  | notFound
  deriving Repr, DecidableEq

/-- Route dispatch of `do_POST` (claude-hub.py:1537-1623 and
claude-remote-hub.py:536-620). -/
def postRouteOf (path : String) : PostRoute :=
  if pyStartsWith path "/api/send-keys/" then PostRoute.sendKeysR
  else if pyStartsWith path "/api/send-text/" then PostRoute.sendTextR
  else if pyStartsWith path "/api/scroll/" then PostRoute.scrollR
  else PostRoute.other

/-- Name extraction of the POST routes:
`path.split(route_prefix)[1].strip("/")`. -/
def postNameOf (path : String) : String :=
  match postRouteOf path with
  | PostRoute.sendKeysR => pyStripSlashes (pySplitIdx1 path "/api/send-keys/")
  | PostRoute.sendTextR => pyStripSlashes (pySplitIdx1 path "/api/send-text/")
  | PostRoute.scrollR => pyStripSlashes (pySplitIdx1 path "/api/scroll/")
  | PostRoute.other => ""

/-- Handling of a dispatched POST route: validation, then the tmux
pass-through calls.  `loadBufferOk` is the exit status of
`tmux load-buffer` (the paste is issued only when it is zero).  The error
value is the uncaught exception escaping the handler, carrying the (empty)
list of tmux calls made before it. -/
def handlePost (loadBufferOk : Bool) (route : PostRoute) (name : String)
    (body : PostBody) : Except (List Action) (Response × List Action) :=
  let session := sessionId name
  match route with
  | PostRoute.other => Except.ok (Response.notFound, [])
  | PostRoute.sendKeysR =>
    match body with
    | PostBody.malformed => Except.error []
    | PostBody.fields kv =>
      let key := jsonGet kv "key"
      if key ∉ allowedKeys then Except.ok (Response.badRequest, [])
      else Except.ok (Response.okJson, [Action.sendKeys session key])
  | PostRoute.sendTextR =>
    match body with
    | PostBody.malformed => Except.error []
    | PostBody.fields kv =>
      let text := jsonGet kv "text"
      if text = "" ∨ 10000 < text.length then Except.ok (Response.badRequest, [])
      else
        Except.ok (Response.okJson,
          Action.loadBuffer text ::
            if loadBufferOk then [Action.pasteBuffer session] else [])
  | PostRoute.scrollR =>
    match body with
    | PostBody.malformed => Except.error []
    | PostBody.fields kv =>
      let dir := jsonGet kv "direction"
      if ¬ (dir = "up" ∨ dir = "down") then Except.ok (Response.badRequest, [])
      else
        Except.ok (Response.okJson,
          [Action.copyMode session,
           Action.sendKeys session (if dir = "up" then "PageUp" else "PageDown")])

/-- Embedding of `do_POST`: dispatch on the path, extract the name, handle. -/
def doPost (loadBufferOk : Bool) (path : String) (body : PostBody) :
    Except (List Action) (Response × List Action) :=
  handlePost loadBufferOk (postRouteOf path) (postNameOf path) body

/-- Redirect response of the GET `/start/` route: the Location header and
the trace of issued commands. -/
structure StartResponse where
  location : String
  actions : List Action
  deriving Repr, DecidableEq

/-- Embedding of the `/start/` branch of `do_GET` (claude-hub.py:1414-1428
and claude-remote-hub.py:413-426): the name is the URL-decoded path segment
after "/start/" with surrounding slashes stripped — nothing else is done to
it — an empty name redirects home, otherwise `start_session` runs on that
raw name and the client is redirected to its terminal page. -/
def doGetStart (env : Env) (path : String) (dirQ : Option String) (skipQ : Bool) :
    StartResponse × Env :=
  let name := pyStripSlashes (pySplitIdx1 path "/start/")
  if name == "" then (StartResponse.mk "/" [], env)
  else
    let r := startSession env name dirQ skipQ
    (StartResponse.mk ("/terminal/" ++ name) r.2.1, r.2.2)

/-- Safe token as the spec words it: lowercase alphanumerics and hyphens
only. -/
def isSafeToken (s : String) : Bool :=
  s.data.all fun c => c.isLower || c.isDigit || c == '-'

/-- C1: for every string name, `port_for_name` is deterministic (a pure
function of the name — equal names give equal ports) and the port lies in
the half-open range `[BASE_PORT, BASE_PORT + 100)`, i.e. `7700 ≤ p < 7800`. -/
theorem C1_port_deterministic_and_in_range :
    (∀ n₁ n₂ : String, n₁ = n₂ → port_for_name n₁ = port_for_name n₂) ∧
    ∀ n : String, BASE_PORT ≤ port_for_name n ∧ port_for_name n < BASE_PORT + 100 := by
  constructor
  · intro n₁ n₂ h
    rw [h]
  · intro n
    have h99 : md5Int (strBytes n) % (MAX_PORT - BASE_PORT) < MAX_PORT - BASE_PORT :=
      Nat.mod_lt _ (by decide)
    unfold port_for_name BASE_PORT MAX_PORT at *
    omega

/-- C1 witness: the theorem instantiated at the concrete name "alpha". -/
theorem C1_port_deterministic_and_in_range_witness :
    port_for_name "alpha" = port_for_name "alpha" ∧
    BASE_PORT ≤ port_for_name "alpha" ∧ port_for_name "alpha" < BASE_PORT + 100 :=
  ⟨C1_port_deterministic_and_in_range.1 "alpha" "alpha" rfl,
   C1_port_deterministic_and_in_range.2 "alpha"⟩

/-- C2: the claim states that `port_for_name` reduces the digest modulo the
window width 100 and that all 100 window ports are attainable.  The code
reduces modulo `MAX_PORT - BASE_PORT = 99` instead: the top port 7799 is
attainable for no name, and on the concrete name "alpha" the computed port
7796 differs from the specified `BASE_PORT + digest % 100 = 7729`. -/
theorem C2_port_window_off_by_one :
    (∀ n : String, port_for_name n ≠ MAX_PORT) ∧
    port_for_name "alpha" = 7796 ∧
    portForNameSpec "alpha" = 7729 ∧
    port_for_name "alpha" ≠ portForNameSpec "alpha" := by
  refine ⟨?_, by decide, by decide, by decide⟩
  intro n hn
  have h99 : md5Int (strBytes n) % (MAX_PORT - BASE_PORT) < MAX_PORT - BASE_PORT :=
    Nat.mod_lt _ (by decide)
  unfold port_for_name BASE_PORT MAX_PORT at *
  omega

/-- C3: start is idempotent — the port returned is the deterministic port
both times; a second call right after a first issues no external
process-creation call; when the session is already fully running the call
issues no creation at all; and when only the multiplexer session exists the
call creates exactly the bridge process, never the multiplexer session. -/
theorem C3_start_idempotent (env : Env) (name : String) (directory : Option String)
    (skip : Bool) :
    (startSession env name directory skip).1 = port_for_name name ∧
    (startSession (startSession env name directory skip).2.2 name directory skip).1 =
      (startSession env name directory skip).1 ∧
    (startSession (startSession env name directory skip).2.2 name directory skip).2.1.filter
      Action.isCreation = [] ∧
    (sessionId name ∈ env.tmuxSessions → port_for_name name ∈ env.listeningPorts →
      (startSession env name directory skip).2.1.filter Action.isCreation = []) ∧
    (sessionId name ∈ env.tmuxSessions → port_for_name name ∉ env.listeningPorts →
      (startSession env name directory skip).2.1.filter Action.isCreation =
        [Action.spawnTtyd (port_for_name name) (sessionId name)]) := by
  by_cases hs : sessionId name ∈ env.tmuxSessions <;>
    by_cases hp : port_for_name name ∈ env.listeningPorts <;>
      simp [startSession, hs, hp, Action.isCreation]

/-- C3 witness: a world where only the multiplexer session of name "a"
exists — the first call creates exactly the bridge, the second creates
nothing. -/
theorem C3_start_idempotent_witness :
    (startSession (Env.mk [sessionId "a"] [] fun _ => false) "a" none false).2.1.filter
      Action.isCreation = [Action.spawnTtyd (port_for_name "a") (sessionId "a")] ∧
    (startSession
      (startSession (Env.mk [sessionId "a"] [] fun _ => false) "a" none false).2.2
      "a" none false).2.1.filter Action.isCreation = [] :=
  ⟨(C3_start_idempotent (Env.mk [sessionId "a"] [] fun _ => false) "a" none false).2.2.2.2
      (by simp) (by simp),
   (C3_start_idempotent (Env.mk [sessionId "a"] [] fun _ => false) "a" none false).2.2.1⟩

/-- The SIGTERM loop issues only sigterm actions, never a kill-session. -/
theorem killSession_not_mem_sigtermLoop (raises : Nat → Bool) (s : String)
    (pids : List Nat) : Action.killSession s ∉ (sigtermLoop raises pids).1 := by
  induction pids with
  | nil => simp [sigtermLoop]
  | cons p rest ih =>
    by_cases h : raises p = true <;> simp [sigtermLoop, h, ih]

/-- The bridge-kill phase issues only pkill / sigterm actions, never a
kill-session. -/
theorem killSession_not_mem_bridgeKillRemote (kenv : KillEnv) (port : Nat)
    (s : String) : Action.killSession s ∉ (bridgeKillRemote kenv port).1 := by
  unfold bridgeKillRemote
  by_cases h1 : kenv.pkillPresent = true
  · simp [h1]
  · by_cases h2 : kenv.lsofPresent = true
    · by_cases h3 : kenv.lsofTiExitZero = true
      · simp [h1, h2, h3, killSession_not_mem_sigtermLoop]
      · simp [h1, h2, h3]
    · simp [h1, h2]

/-- An exception escapes the bridge-kill phase only on the lsof/SIGTERM
fallback path. -/
theorem bridgeKillRemote_raised (kenv : KillEnv) (port : Nat)
    (h : (bridgeKillRemote kenv port).2 = true) :
    kenv.pkillPresent = false ∧ kenv.lsofPresent = true ∧
      kenv.lsofTiExitZero = true := by
  unfold bridgeKillRemote at h
  by_cases h1 : kenv.pkillPresent = true <;> by_cases h2 : kenv.lsofPresent = true <;>
    by_cases h3 : kenv.lsofTiExitZero = true <;> simp_all

/-- C6 counterexample: two concrete worlds refute the claim that a failing
bridge-kill step never prevents the multiplexer kill.  In claude-hub.py,
with the hardcoded pkill binary absent, stop_session raises
FileNotFoundError with the tmux kill-session never attempted; in
claude-remote-hub.py, with pkill absent and `os.kill` on the lsof-listed
PID 4242 raising an uncaught ProcessLookupError / PermissionError,
stop_session aborts before the tmux kill-session as well. -/
theorem C6_counterexample_stop_abort_paths :
    stopSessionHub (KillEnv.mk false false false "" (fun _ => false) true) "alpha" =
      ([], true) ∧
    Action.killSession (sessionId "alpha") ∉
      (stopSessionHub (KillEnv.mk false false false "" (fun _ => false) true) "alpha").1 ∧
    stopSessionRemote (KillEnv.mk false true true "4242" (fun _ => true) true) "alpha" =
      ([Action.sigterm 4242], true) ∧
    Action.killSession (sessionId "alpha") ∉
      (stopSessionRemote (KillEnv.mk false true true "4242" (fun _ => true) true)
        "alpha").1 := by
  refine ⟨rfl, by decide, rfl, by decide⟩

/-- C6 amended: nonzero exits of the teardown commands never prevent the
other step in either variant, the remote variant catches a failing lsof
fallback, and whenever stop returns without an exception the multiplexer
kill was attempted; but the independence is not universal — an exception
escaping stop always means the multiplexer kill was skipped, and that
happens exactly when the tmux binary is absent, when claude-hub.py's
hardcoded pkill binary is absent, or when an `os.kill` of the remote
variant's lsof fallback raises one of the uncaught error classes. -/
theorem C6_stop_best_effort (kenv : KillEnv) (name : String) :
    (kenv.pkillPresent = true → kenv.tmuxPresent = true →
      stopSessionRemote kenv name =
        ([Action.pkillTtyd (port_for_name name), Action.killSession (sessionId name)],
          false) ∧
      stopSessionHub kenv name =
        ([Action.pkillTtyd (port_for_name name), Action.killSession (sessionId name)],
          false)) ∧
    (kenv.pkillPresent = false → kenv.lsofPresent = true →
      kenv.lsofTiExitZero = false → kenv.tmuxPresent = true →
      stopSessionRemote kenv name = ([Action.killSession (sessionId name)], false)) ∧
    ((stopSessionRemote kenv name).2 = false →
      Action.killSession (sessionId name) ∈ (stopSessionRemote kenv name).1) ∧
    ((stopSessionRemote kenv name).2 = true →
      Action.killSession (sessionId name) ∉ (stopSessionRemote kenv name).1) ∧
    ((stopSessionRemote kenv name).2 = true →
      kenv.tmuxPresent = false ∨
        (kenv.pkillPresent = false ∧ kenv.lsofPresent = true ∧
          kenv.lsofTiExitZero = true)) ∧
    ((stopSessionHub kenv name).2 = true →
      kenv.pkillPresent = false ∨ kenv.tmuxPresent = false) := by
  refine ⟨?_, ?_, ?_, ?_, ?_, ?_⟩
  · intro h1 h2
    constructor
    · simp [stopSessionRemote, bridgeKillRemote, h1, h2]
    · simp [stopSessionHub, h1, h2]
  · intro h1 h2 h3 h4
    simp [stopSessionRemote, bridgeKillRemote, h1, h2, h3, h4]
  · intro h
    unfold stopSessionRemote at h ⊢
    by_cases hb : (bridgeKillRemote kenv (port_for_name name)).2 = true
    · simp [hb] at h
    · by_cases ht : kenv.tmuxPresent = true
      · simp [hb, ht]
      · simp [hb, ht] at h
  · intro h
    unfold stopSessionRemote at h ⊢
    by_cases hb : (bridgeKillRemote kenv (port_for_name name)).2 = true
    · simp only [hb, if_true]
      exact killSession_not_mem_bridgeKillRemote kenv _ _
    · by_cases ht : kenv.tmuxPresent = true
      · simp [hb, ht] at h
      · simp only [hb, ht, if_false]
        exact killSession_not_mem_bridgeKillRemote kenv _ _
  · intro h
    unfold stopSessionRemote at h
    by_cases hb : (bridgeKillRemote kenv (port_for_name name)).2 = true
    · exact Or.inr (bridgeKillRemote_raised kenv _ hb)
    · by_cases ht : kenv.tmuxPresent = true
      · simp [hb, ht] at h
      · exact Or.inl (by simpa using ht)
  · intro h
    unfold stopSessionHub at h
    by_cases h1 : kenv.pkillPresent = true
    · by_cases h2 : kenv.tmuxPresent = true
      · simp [h1, h2] at h
      · exact Or.inr (by simpa using h2)
    · exact Or.inl (by simpa using h1)

/-- C6 witness: with pkill and tmux present, both variants issue the bridge
kill and the multiplexer kill; in the concrete os.kill-aborting world the
multiplexer kill is indeed skipped. -/
theorem C6_stop_best_effort_witness :
    stopSessionRemote (KillEnv.mk true false false "" (fun _ => false) true) "alpha" =
      ([Action.pkillTtyd (port_for_name "alpha"), Action.killSession (sessionId "alpha")],
        false) ∧
    stopSessionHub (KillEnv.mk true false false "" (fun _ => false) true) "alpha" =
      ([Action.pkillTtyd (port_for_name "alpha"), Action.killSession (sessionId "alpha")],
        false) ∧
    Action.killSession (sessionId "alpha") ∉
      (stopSessionRemote (KillEnv.mk false true true "4242" (fun _ => true) true)
        "alpha").1 :=
  ⟨((C6_stop_best_effort (KillEnv.mk true false false "" (fun _ => false) true) "alpha").1
      rfl rfl).1,
   ((C6_stop_best_effort (KillEnv.mk true false false "" (fun _ => false) true) "alpha").1
      rfl rfl).2,
   (C6_stop_best_effort (KillEnv.mk false true true "4242" (fun _ => true) true)
      "alpha").2.2.2.1 (by decide)⟩

/-- Reflexivity of the startswith model. -/
theorem pyStartsWith_refl (s : String) : pyStartsWith s s = true := by
  simp [pyStartsWith]

/-- The confinement step always leaves a string with the base as prefix. -/
theorem confineTarget_startsWith (base t : String) :
    pyStartsWith (confineTarget base t) base = true := by
  unfold confineTarget
  cases h : pyStartsWith t base
  · simp [h, pyStartsWith_refl]
  · simp [h]

/-- The remote variant's final is-directory guard also preserves the base
prefix. -/
theorem guardTarget_startsWith (fs : FsEnv) (base t : String) :
    pyStartsWith (if !(fs.isDir (confineTarget base t)) then base else confineTarget base t)
      base = true := by
  cases h : fs.isDir (confineTarget base t)
  · simp [h, pyStartsWith_refl]
  · simp [h, confineTarget_startsWith]

/-- A nonempty string has length at least one. -/
theorem one_le_length_of_ne_empty (s : String) (h : s ≠ "") : 1 ≤ s.length := by
  obtain ⟨l⟩ := s
  cases l with
  | nil => exact absurd rfl h
  | cons a t => simp [String.length]

/-- C4 counterexample: a tmux sub-probe exceeding its bounded timeout makes
`future.result(timeout=3)` raise the futures TimeoutError, which belongs to
neither caught exception class, so `get_sessions` propagates an error
instead of returning the empty session list the claim requires. -/
theorem C4_counterexample_timeout_propagates :
    getSessions ProbeOutcome.timeout (PortsOutcome.ok []) = Except.error () := rfl

/-- C4 amended: `get_sessions` maps an absent multiplexer binary and a
nonzero multiplexer exit to the empty session list, but a sub-probe
exceeding its bounded timeout propagates an uncaught error to the caller
rather than being treated as empty. -/
theorem C4_probe_failure_absorption (tmuxRes : ProbeOutcome) (portsRes : PortsOutcome) :
    (tmuxRes = ProbeOutcome.binMissing ∨ tmuxRes = ProbeOutcome.nonzeroExit →
      getSessions tmuxRes portsRes = Except.ok []) ∧
    (tmuxRes = ProbeOutcome.timeout → getSessions tmuxRes portsRes = Except.error ()) ∧
    (∀ out, tmuxRes = ProbeOutcome.ok out → portsRes = PortsOutcome.timeout →
      getSessions tmuxRes portsRes = Except.error ()) := by
  refine ⟨?_, ?_, ?_⟩
  · rintro (rfl | rfl) <;> rfl
  · rintro rfl
    rfl
  · rintro out rfl rfl
    rfl

/-- C4 witness: an absent binary yields the empty listing; a timed-out port
probe under a successful tmux probe yields the propagated error. -/
theorem C4_probe_failure_absorption_witness :
    getSessions ProbeOutcome.binMissing (PortsOutcome.ok []) = Except.ok [] ∧
    getSessions (ProbeOutcome.ok "") PortsOutcome.timeout = Except.error () :=
  ⟨(C4_probe_failure_absorption ProbeOutcome.binMissing (PortsOutcome.ok [])).1 (Or.inl rfl),
   (C4_probe_failure_absorption (ProbeOutcome.ok "") PortsOutcome.timeout).2.2 "" rfl rfl⟩

/-- C5 counterexample: the server applies no normalization — the raw path
segment "Hello World", which is not a safe token (uppercase and a space),
is used verbatim in the multiplexer session identifier probed by
start_session, refuting the claim that the session identifier is always
computed from a normalized token. -/
theorem C5_counterexample_unnormalized_name :
    (doGetStart (Env.mk [] [] fun _ => false) "/start/Hello World" none false).1.actions.getD 0
      (Action.checkPort 0) = Action.hasSession "claude-Hello World" ∧
    isSafeToken "Hello World" = false := by
  constructor
  · rfl
  · rfl

/-- C5 amended: the name used by the start endpoint is exactly the raw
slash-stripped path segment after "/start/", with no normalization: the
issued commands are those of start_session on that raw name, the session
identifier probed first is the prefix plus the raw name, the port is
derived from the raw name, and the redirect echoes the raw name. -/
theorem C5_start_uses_raw_name (env : Env) (path : String) (dirQ : Option String)
    (skipQ : Bool) :
    let name := pyStripSlashes (pySplitIdx1 path "/start/")
    name ≠ "" →
    (doGetStart env path dirQ skipQ).1.actions = (startSession env name dirQ skipQ).2.1 ∧
    (doGetStart env path dirQ skipQ).1.actions.getD 0 (Action.checkPort 0) =
      Action.hasSession (sessionId name) ∧
    (startSession env name dirQ skipQ).1 = port_for_name name ∧
    (doGetStart env path dirQ skipQ).1.location = "/terminal/" ++ name := by
  intro name hn
  have hb : (name == "") = false := by simpa using hn
  refine ⟨?_, ?_, rfl, ?_⟩
  · simp [doGetStart, hb]
  · simp [doGetStart, hb, startSession]
  · simp [doGetStart, hb]

/-- C5 witness: the amended statement at the safe concrete name "my-app". -/
theorem C5_start_uses_raw_name_witness :
    (doGetStart (Env.mk [] [] fun _ => false) "/start/my-app" none false).1.actions =
      (startSession (Env.mk [] [] fun _ => false) "my-app" none false).2.1 ∧
    (doGetStart (Env.mk [] [] fun _ => false) "/start/my-app" none false).1.actions.getD 0
      (Action.checkPort 0) = Action.hasSession (sessionId "my-app") ∧
    (startSession (Env.mk [] [] fun _ => false) "my-app" none false).1 =
      port_for_name "my-app" ∧
    (doGetStart (Env.mk [] [] fun _ => false) "/start/my-app" none false).1.location =
      "/terminal/" ++ "my-app" :=
  C5_start_uses_raw_name (Env.mk [] [] fun _ => false) "/start/my-app" none false (by decide)

/-- C7 counterexample: a POST body that is not valid JSON raises an
uncaught exception out of the send-keys handler — no client-error response
is produced (though no multiplexer call is made either), refuting the claim
that every malformed payload is answered with an invalid-request
response. -/
theorem C7_counterexample_malformed_body :
    doPost true "/api/send-keys/alpha" PostBody.malformed = Except.error [] := rfl

/-- C7 amended: requests that parse as a JSON object but fail validation —
a key outside the allow-list, a pasted text over 10,000 characters, a
scroll direction that is neither "up" nor "down" — are answered with the
client-error response and no multiplexer call; a body that is not a JSON
object instead raises an uncaught exception with no multiplexer call and
no client-error response. -/
theorem C7_validation_rejections (loadOk : Bool) (name : String)
    (kv : List (String × String)) :
    (jsonGet kv "key" ∉ allowedKeys →
      handlePost loadOk PostRoute.sendKeysR name (PostBody.fields kv) =
        Except.ok (Response.badRequest, [])) ∧
    (10000 < (jsonGet kv "text").length →
      handlePost loadOk PostRoute.sendTextR name (PostBody.fields kv) =
        Except.ok (Response.badRequest, [])) ∧
    (jsonGet kv "direction" ≠ "up" → jsonGet kv "direction" ≠ "down" →
      handlePost loadOk PostRoute.scrollR name (PostBody.fields kv) =
        Except.ok (Response.badRequest, [])) ∧
    (∀ route, route ≠ PostRoute.other →
      handlePost loadOk route name PostBody.malformed = Except.error []) := by
  refine ⟨?_, ?_, ?_, ?_⟩
  · intro h
    simp [handlePost, h]
  · intro h
    simp [handlePost, h]
  · intro h1 h2
    simp [handlePost, h1, h2]
  · intro route hr
    cases route <;> simp_all [handlePost]

/-- C7 witness: a disallowed key, an oversized text, a bad scroll direction
and a malformed body, each at a concrete request. -/
theorem C7_validation_rejections_witness :
    handlePost true PostRoute.sendKeysR "alpha" (PostBody.fields [("key", "q")]) =
      Except.ok (Response.badRequest, []) ∧
    handlePost true PostRoute.sendTextR "alpha"
      (PostBody.fields [("text", String.mk (List.replicate 10001 'x'))]) =
      Except.ok (Response.badRequest, []) ∧
    handlePost true PostRoute.scrollR "alpha" (PostBody.fields [("direction", "left")]) =
      Except.ok (Response.badRequest, []) ∧
    handlePost true PostRoute.sendKeysR "alpha" PostBody.malformed = Except.error [] :=
  ⟨(C7_validation_rejections true "alpha" [("key", "q")]).1 (by decide),
   (C7_validation_rejections true "alpha"
      [("text", String.mk (List.replicate 10001 'x'))]).2.1
     (by
       have h : jsonGet [("text", String.mk (List.replicate 10001 'x'))] "text" =
           String.mk (List.replicate 10001 'x') := rfl
       rw [h]
       show 10000 < (List.replicate 10001 'x').length
       rw [List.length_replicate]
       norm_num),
   (C7_validation_rejections true "alpha" [("direction", "left")]).2.2.1 (by decide) (by decide),
   (C7_validation_rejections true "alpha" []).2.2.2 PostRoute.sendKeysR (by decide)⟩

/-- C8 counterexample: with both enumeration tools absent on a linux host
where a raw connect to port 7700 would succeed, the source's range
enumeration returns the empty set while the claimed chain (with its final
connect-probe fallback) would return the singleton 7700 — there is no
connect-probe fallback in the range enumeration. -/
theorem C8_counterexample_no_connect_probe_fallback :
    getTtydPorts netNoTools = ∅ ∧
    getTtydPortsSpec netNoTools = {7700} ∧
    getTtydPorts netNoTools ≠ getTtydPortsSpec netNoTools := by
  refine ⟨by decide, by decide, by decide⟩

/-- C8 amended: the range enumeration tries lsof, falls back to ss exactly
when the lsof result is empty and the platform is linux (so never off
linux), and yields the empty set — not an error — when both tools are
absent; the direct connect-probe is the final fallback only of the
single-port check `port_in_use`, not of the range enumeration. -/
theorem C8_enumeration_fallback_chain (net : NetEnv) (p : ℕ) :
    (net.lsofFound = false → net.ssFound = false → getTtydPorts net = ∅) ∧
    (net.platform = "linux" → listeningPortsLsof net = ∅ →
      getTtydPorts net = listeningPortsSs net) ∧
    (net.platform ≠ "linux" → getTtydPorts net = listeningPortsLsof net) ∧
    (net.lsofFound = false → net.ssFound = false →
      portInUse net p = net.socketConnects p) := by
  refine ⟨?_, ?_, ?_, ?_⟩
  · intro h1 h2
    simp [getTtydPorts, listeningPortsLsof, listeningPortsSs, h1, h2]
  · intro h1 h2
    simp [getTtydPorts, h1, h2]
  · intro h
    simp [getTtydPorts, h]
  · intro h1 h2
    simp [portInUse, h1, h2]

/-- C8 witness: the no-tools world — empty enumeration, and the single-port
check reduced to the socket probe. -/
theorem C8_enumeration_fallback_chain_witness :
    getTtydPorts netNoTools = ∅ ∧
    portInUse netNoTools 7700 = netNoTools.socketConnects 7700 :=
  ⟨(C8_enumeration_fallback_chain netNoTools 7700).1 rfl rfl,
   (C8_enumeration_fallback_chain netNoTools 7700).2.2.2 rfl rfl⟩

/-- C9 counterexample: with the configured root resolving to "/r/p" and a
sibling directory "/r/pq", the request "../pq" resolves to "/r/pq", which
passes the string-prefix check yet lies outside the root's directory
tree — refuting the claim that the browsed directory always lies within the
root tree. -/
theorem C9_counterexample_sibling_escape :
    (getFoldersHub fsEscape "../pq").absolute = "/r/pq" ∧
    fsEscape.realpath fsEscape.devRoot = "/r/p" ∧
    withinTree "/r/p" "/r/pq" = false := by
  refine ⟨by decide, by decide, by decide⟩

/-- C9 amended: both `get_folders` variants confine the browsed directory
only up to a plain string-prefix check — the returned absolute path always
has the resolved root as a string prefix (ancestor escapes are clamped to
the root), but a sibling whose canonical path extends the root's path as a
string, such as "/r/pq" beside root "/r/p", is accepted although it is
outside the root's tree. -/
theorem C9_folders_confined_to_prefix (fs : FsEnv) (relPath : String) :
    pyStartsWith (getFoldersHub fs relPath).absolute (fs.realpath fs.devRoot) = true ∧
    pyStartsWith (getFoldersRemote fs relPath).absolute
      (if !(fs.isDir (fs.realpath fs.devRoot)) then fs.home
       else fs.realpath fs.devRoot) = true := by
  constructor
  · exact confineTarget_startsWith _ _
  · exact guardTarget_startsWith fs _ _

/-- C9 witness: the amended statement at the concrete escaping world. -/
theorem C9_folders_confined_to_prefix_witness :
    pyStartsWith (getFoldersHub fsEscape "../pq").absolute
      (fsEscape.realpath fsEscape.devRoot) = true ∧
    pyStartsWith (getFoldersRemote fsEscape "../pq").absolute
      (if !(fsEscape.isDir (fsEscape.realpath fsEscape.devRoot)) then fsEscape.home
       else fsEscape.realpath fsEscape.devRoot) = true :=
  C9_folders_confined_to_prefix fsEscape "../pq"

/-- C10: sendText rejects empty (or absent) text with the client-error
response and no multiplexer call, and any accepted paste carries between 1
and 10,000 characters. -/
theorem C10_sendText_rejects_empty (loadOk : Bool) (name : String)
    (kv : List (String × String)) :
    (jsonGet kv "text" = "" →
      handlePost loadOk PostRoute.sendTextR name (PostBody.fields kv) =
        Except.ok (Response.badRequest, [])) ∧
    (∀ acts, handlePost loadOk PostRoute.sendTextR name (PostBody.fields kv) =
        Except.ok (Response.okJson, acts) →
      1 ≤ (jsonGet kv "text").length ∧ (jsonGet kv "text").length ≤ 10000) := by
  constructor
  · intro h
    simp [handlePost, h]
  · intro acts h
    by_cases hc : jsonGet kv "text" = "" ∨ 10000 < (jsonGet kv "text").length
    · simp [handlePost, hc] at h
    · push_neg at hc
      exact ⟨one_le_length_of_ne_empty _ hc.1, hc.2⟩

/-- C10 witness: the empty text is rejected; the accepted two-character
text lies in the permitted size band. -/
theorem C10_sendText_rejects_empty_witness :
    handlePost true PostRoute.sendTextR "alpha" (PostBody.fields [("text", "")]) =
      Except.ok (Response.badRequest, []) ∧
    (1 ≤ (jsonGet [("text", "hi")] "text").length ∧
      (jsonGet [("text", "hi")] "text").length ≤ 10000) :=
  ⟨(C10_sendText_rejects_empty true "alpha" [("text", "")]).1 rfl,
   (C10_sendText_rejects_empty true "alpha" [("text", "hi")]).2
     [Action.loadBuffer "hi", Action.pasteBuffer (sessionId "alpha")] rfl⟩

end ClaudeHub
